import Mathlib

/-!
Shallow embedding of the `nuno` git-branch TUI (Rust sources `src/main.rs`,
`src/git/branch_manager.rs`, `src/ui/status.rs`, `src/ui/controls.rs`).

The version-control backend (`git2`) is modelled as an oracle record `Repo`
whose fields give the results of the backend calls the program makes; each
embedded function additionally returns the ordered list of backend calls it
issued (`BCall`), so that claims about calls never being made can be stated.
Fallible Rust functions returning `Result<T, git2::Error>` become
`Except String T`, with the error carrying the text that `format!("{}", e)`
would display. `std::time::Instant` is modelled as a `Nat` count of
milliseconds, and `Duration::as_secs()` as millisecond division by 1000.
-/

/-- `StatusType` from `src/main.rs` (named `OperationStatusType` in
`src/ui/status.rs`): severity of the last operation's status message. -/
inductive StatusType where
  | info
  | success
  | error
deriving DecidableEq, Repr

/-- `StatusType::get_emoji` from `src/main.rs` lines 29-35. -/
def StatusType.get_emoji : StatusType → String
  | .info => "ℹ️ "
  | .success => "✅"
  | .error => "❌"

/-- `OperationStatus` from `src/main.rs` lines 37-41: message, severity and
creation instant (modelled as milliseconds). -/
structure OperationStatus where
  message : String
  status_type : StatusType
  timestamp : Nat
deriving DecidableEq, Repr

/-- `OperationStatus::default()` from `src/main.rs` lines 43-51: empty
message, `Info` severity, timestamp the present instant. -/
def OperationStatus.default_ (now : Nat) : OperationStatus :=
  ⟨"", StatusType.info, now⟩

/-- `Duration::as_secs()` of the duration between two instants given in
milliseconds: whole seconds, truncating. -/
def elapsedAsSecs (timestamp now : Nat) : Nat :=
  (now - timestamp) / 1000

/-- `OperationStatus::is_expired_or_empty` from `src/ui/status.rs` lines
35-37; `src/main.rs` lines 135-136 inline the identical condition. -/
def OperationStatus.is_expired_or_empty (s : OperationStatus) (now : Nat) : Bool :=
  decide (elapsedAsSecs s.timestamp now > 3) && !(s.message == "")

/-- `OperationStatus::set` from `src/ui/status.rs` lines 39-43: overwrite
message and severity, reset the timestamp to the present instant. -/
def OperationStatus.set (_s : OperationStatus) (message : String)
    (status_type : StatusType) (now : Nat) : OperationStatus :=
  ⟨message, status_type, now⟩

/-- The status-reading part of `App::render_status`, `src/main.rs` lines
134-161: if the stored status is expired-and-non-empty it is first reset to
the default; the function returns the status after this check together with
the text drawn (the severity emoji prefixes a non-empty message; an empty
message displays as "Ready") and the severity used for styling. -/
def render_status_read (s : OperationStatus) (now : Nat) :
    OperationStatus × String × StatusType :=
  let s' := if s.is_expired_or_empty now then OperationStatus.default_ now else s
  let text := if s'.message == "" then "Ready"
    else s'.status_type.get_emoji ++ " " ++ s'.message
  (s', text, s'.status_type)

instance {ε α : Type} [DecidableEq ε] [DecidableEq α] :
    DecidableEq (Except ε α) := fun a b =>
  match a, b with
  | .error e₁, .error e₂ =>
    if h : e₁ = e₂ then .isTrue (by rw [h]) else .isFalse (by simp [h])
  | .error _, .ok _ => .isFalse (by simp)
  | .ok _, .error _ => .isFalse (by simp)
  | .ok v₁, .ok v₂ =>
    if h : v₁ = v₂ then .isTrue (by rw [h]) else .isFalse (by simp [h])

/-- A `git2::Branch` handle. `Branch::name()` returns
`Result<Option<&str>, Error>`: `Ok(None)` when the branch name is not valid
UTF-8. -/
structure Branch where
  name : Except String (Option String)
deriving DecidableEq, Repr

/-- The reference returned by `git2::Repository::head()`: whether it is a
branch, its shorthand name (`None` when absent), and the result of peeling
it to a commit (the commit id rendered as a string). -/
structure HeadRef where
  is_branch : Bool
  shorthand : Option String
  peel_to_commit : Except String String

/-- `git2::AutotagOption`; `FetchOptions::new()` defaults to `Unspecified`,
and `fetch_on_branch` sets `None` (here `noTags`). -/
inductive AutotagOption where
  | unspecified
  | auto
  | noTags
  | all
deriving DecidableEq, Repr

/-- `git2::FetchOptions`: only the `download_tags` setting is observable in
this program. -/
structure FetchOptions where
  download_tags : AutotagOption
deriving DecidableEq, Repr

/-- `FetchOptions::new()`. -/
def FetchOptions.new : FetchOptions :=
  ⟨AutotagOption.unspecified⟩

/-- `FetchOptions::download_tags(opt)`. -/
def FetchOptions.set_download_tags (_o : FetchOptions) (t : AutotagOption) :
    FetchOptions :=
  ⟨t⟩

/-- One backend call issued by the program, with the arguments it passed. -/
inductive BCall where
  | headCall
  | statusesCall
  | setHeadCall (refname : String)
  | checkoutHeadCall
  | findRemoteCall (remote : String)
  | fetchCall (remote : String) (refspecs : List String) (tags : AutotagOption)
  | branchesCall
deriving DecidableEq, Repr

/-- The backend oracle: the `git2::Repository` connection, recorded as the
results each backend call would return in the current repository state.
`statuses` is the length of the `repo.statuses(None)` list (only emptiness
is observed); `branches` is the `Result` iterator of
`repo.branches(Some(Local))`, whose items are themselves `Result`s. -/
structure Repo where
  head : Except String HeadRef
  statuses : Except String Nat
  set_head : String → Except String Unit
  checkout_head : Except String Unit
  find_remote : String → Except String Unit
  fetch : String → List String → FetchOptions → Except String Unit
  branches : Except String (List (Except String Branch))

namespace BranchManager

/-- `BranchManager::refresh_branches`, `src/git/branch_manager.rs` lines
22-30 (duplicated at `src/main.rs` lines 347-355): re-enumerates local
branches; on success the catalog is the new list with errored items
filtered out (`filter_map(Result::ok)`), on failure the `?` operator
returns the error before the assignment, leaving the catalog unchanged.
Returns (new catalog, result, backend calls). -/
def refresh_branches (r : Repo) (local_branches : List Branch) :
    List Branch × Except String Unit × List BCall :=
  match r.branches with
  | .error e => (local_branches, .error e, [BCall.branchesCall])
  | .ok items => (items.filterMap Except.toOption, .ok (), [BCall.branchesCall])

/-- `BranchManager::get_all_local_branch_names`, `src/git/branch_manager.rs`
lines 32-38: the names of catalog entries, silently skipping entries whose
`name()` is an error or not valid UTF-8. -/
def get_all_local_branch_names (local_branches : List Branch) : List String :=
  local_branches.filterMap fun b =>
    match b.name with
    | .ok (some s) => some s
    | _ => none

/-- `BranchManager::get_current_branch`, `src/git/branch_manager.rs` lines
40-50 (duplicated at `src/main.rs` lines 365-375): resolve `repo.head()`;
for a branch, its shorthand (or "HEAD" when absent); for a detached head,
the id of the commit it peels to. -/
def get_current_branch (r : Repo) : List BCall × Except String String :=
  match r.head with
  | .error e => ([BCall.headCall], .error e)
  | .ok h =>
    if h.is_branch then
      ([BCall.headCall], .ok (h.shorthand.getD "HEAD"))
    else
      ([BCall.headCall], h.peel_to_commit)

/-- `BranchManager::switch_to_branch`, `src/git/branch_manager.rs` lines
52-71 (duplicated at `src/main.rs` lines 377-396): resolve the branch name
(error "Invalid UTF-8 in branch name." when `name()` is `Ok(None)`), resolve
the current head name, check `repo.statuses(None)`; a non-empty status list
refuses the switch with the uncommitted-changes error; otherwise
`set_head("refs/heads/<name>")` then `checkout_head`. -/
def switch_to_branch (r : Repo) (b : Branch) :
    List BCall × Except String Unit :=
  match b.name with
  | .error e => ([], .error e)
  | .ok none => ([], .error "Invalid UTF-8 in branch name.")
  | .ok (some branch_name) =>
    match get_current_branch r with
    | (t, .error e) => (t, .error e)
    | (t, .ok current_head_name) =>
      match r.statuses with
      | .error e => (t ++ [BCall.statusesCall], .error e)
      | .ok n =>
        if n ≠ 0 then
          (t ++ [BCall.statusesCall],
           .error ("Uncommitted local changes on branch " ++ current_head_name))
        else
          let refname := "refs/heads/" ++ branch_name
          match r.set_head refname with
          | .error e =>
            (t ++ [BCall.statusesCall, BCall.setHeadCall refname], .error e)
          | .ok _ =>
            (t ++ [BCall.statusesCall, BCall.setHeadCall refname,
                   BCall.checkoutHeadCall],
             r.checkout_head)

/-- `BranchManager::fetch_on_branch`, `src/git/branch_manager.rs` lines
73-90 (duplicated at `src/main.rs` lines 398-415): resolve the branch name
(error "Invalid UTF-8 in branch name" when `name()` is `Ok(None)`), find the
remote "origin", and fetch the single refspec
`+refs/heads/<name>:refs/remotes/origin/<name>` with tag download disabled. -/
def fetch_on_branch (r : Repo) (b : Branch) :
    List BCall × Except String Unit :=
  match b.name with
  | .error e => ([], .error e)
  | .ok none => ([], .error "Invalid UTF-8 in branch name")
  | .ok (some branch_name) =>
    match r.find_remote "origin" with
    | .error e => ([BCall.findRemoteCall "origin"], .error e)
    | .ok _ =>
      let refspec :=
        "+refs/heads/" ++ branch_name ++ ":refs/remotes/origin/" ++ branch_name
      let fetch_options := FetchOptions.new.set_download_tags AutotagOption.noTags
      ([BCall.findRemoteCall "origin",
        BCall.fetchCall "origin" [refspec] fetch_options.download_tags],
       r.fetch "origin" [refspec] fetch_options)

end BranchManager

/-- `ratatui::widgets::ListState`: only the selected index is observable in
this program (`usize` modelled as `Nat`, with `usize::MAX` explicit where
saturating arithmetic can reach it). -/
def USIZE_MAX : Nat := 2 ^ 64 - 1

/-- `ListState::select_next` as called by `App::select_next`
(`src/main.rs` lines 235-237): `Some(selected.map_or(0, |i|
i.saturating_add(1)))` — no clamping to the list length here. -/
def listStateSelectNext (selected : Option Nat) : Option Nat :=
  some (match selected with
    | none => 0
    | some i => min (i + 1) USIZE_MAX)

/-- `ListState::select_previous` as called by `App::select_previous`
(`src/main.rs` lines 238-240): `Some(selected.map_or(usize::MAX, |i|
i.saturating_sub(1)))`. -/
def listStateSelectPrevious (selected : Option Nat) : Option Nat :=
  some (match selected with
    | none => USIZE_MAX
    | some i => i - 1)

/-- The `ListState` normalisation `ratatui`'s `List` widget performs when
`App::render_body` draws the catalog (`src/main.rs` lines 170-211): with no
items the selection becomes `None`; a selected index at or past the item
count is clamped to the last item. -/
def listRenderClamp (len : Nat) (selected : Option Nat) : Option Nat :=
  if len = 0 then none
  else
    match selected with
    | none => none
    | some i => if i ≥ len then some (len - 1) else some i

/-- The `App` session state, `src/main.rs` lines 53-58: the branch manager
(backend connection and branch catalog), the list-selection state, the exit
flag and the current operation status. -/
structure App where
  repo : Repo
  local_branches : List Branch
  selected : Option Nat
  exit : Bool
  operation_status : OperationStatus

/-- `App::new`, `src/main.rs` lines 85-94: selection starts at `Some(0)`
(even for an empty catalog), `exit` false, default status; the catalog is
the branch enumeration at start-up (`BranchManager::new`). -/
def App.new (r : Repo) (local_branches : List Branch) (now : Nat) : App :=
  ⟨r, local_branches, some 0, false, OperationStatus.default_ now⟩

/-- `App::set_status`, `src/main.rs` lines 126-132. -/
def App.set_status (a : App) (message : String) (status_type : StatusType)
    (now : Nat) : App :=
  { a with operation_status := ⟨message, status_type, now⟩ }

/-- `App::select_next`, `src/main.rs` lines 235-237. -/
def App.select_next (a : App) : App :=
  { a with selected := listStateSelectNext a.selected }

/-- `App::select_previous`, `src/main.rs` lines 238-240. -/
def App.select_previous (a : App) : App :=
  { a with selected := listStateSelectPrevious a.selected }

/-- `q` key handling, `src/main.rs` line 219: set the exit flag. -/
def App.quit (a : App) : App :=
  { a with exit := true }

/-- The selected branch, `self.state.selected().and_then(|i|
self.branch_manager.local_branches.get(i))` (`src/main.rs` lines 243-246,
256-259, 283-286, 295-298). -/
def App.selectedBranch (a : App) : Option Branch :=
  a.selected.bind fun i => a.local_branches.get? i

/-- The display name used in status messages, `src/main.rs` lines 242-249
and 281-289: the selected branch's name when it resolves to valid UTF-8,
otherwise the placeholder "unknown branch". -/
def App.resolvedName (a : App) : String :=
  match a.selectedBranch with
  | some b =>
    match b.name with
    | .ok (some s) => s
    | _ => "unknown branch"
  | none => "unknown branch"

/-- The observable outcome of one controller action: the state after the
action, the `set_status` calls it made in order, the backend calls issued,
the lines printed to stderr, and the `Option<Result>` of the backend
operation (`None` on the no-selection path). -/
structure ActionOut where
  app : App
  statusLog : List (String × StatusType)
  calls : List BCall
  stderrLog : List String
  result : Option (Except String Unit)

/-- `App::switch_branch`, `src/main.rs` lines 242-279: resolve the display
name, set "Switching to {name}..." (Info), run
`BranchManager::switch_to_branch` on the selected branch if any, then set
the outcome status: success, error with the backend's error text, or "No
branch selected" (Info) when nothing is selected. -/
def App.switch_branch (a : App) (now : Nat) : ActionOut :=
  let branch_name := a.resolvedName
  let a₁ := a.set_status ("Switching to " ++ branch_name ++ "...") .info now
  match a.selectedBranch with
  | none =>
    { app := a₁.set_status "No branch selected" .info now
      statusLog := [("Switching to " ++ branch_name ++ "...", .info),
                    ("No branch selected", .info)]
      calls := []
      stderrLog := []
      result := none }
  | some b =>
    match BranchManager.switch_to_branch a.repo b with
    | (tr, .ok _) =>
      { app := a₁.set_status
          ("Successfully switched to branch " ++ branch_name) .success now
        statusLog := [("Switching to " ++ branch_name ++ "...", .info),
                      ("Successfully switched to branch " ++ branch_name,
                       .success)]
        calls := tr
        stderrLog := []
        result := some (.ok ()) }
    | (tr, .error e) =>
      { app := a₁.set_status
          ("Error switching to " ++ branch_name ++ ": " ++ e) .error now
        statusLog := [("Switching to " ++ branch_name ++ "...", .info),
                      ("Error switching to " ++ branch_name ++ ": " ++ e,
                       .error)]
        calls := tr
        stderrLog := []
        result := some (.error e) }

/-- `App::fetch_branch`, `src/main.rs` lines 281-319: resolve the display
name, set "Fetching {name}..." (Info), run `BranchManager::fetch_on_branch`
on the selected branch if any, then set the outcome status. -/
def App.fetch_branch (a : App) (now : Nat) : ActionOut :=
  let branch_name := a.resolvedName
  let a₁ := a.set_status ("Fetching " ++ branch_name ++ "...") .info now
  match a.selectedBranch with
  | none =>
    { app := a₁.set_status "No branch selected" .info now
      statusLog := [("Fetching " ++ branch_name ++ "...", .info),
                    ("No branch selected", .info)]
      calls := []
      stderrLog := []
      result := none }
  | some b =>
    match BranchManager.fetch_on_branch a.repo b with
    | (tr, .ok _) =>
      { app := a₁.set_status ("Successfully fetched " ++ branch_name) .success now
        statusLog := [("Fetching " ++ branch_name ++ "...", .info),
                      ("Successfully fetched " ++ branch_name, .success)]
        calls := tr
        stderrLog := []
        result := some (.ok ()) }
    | (tr, .error e) =>
      { app := a₁.set_status
          ("Error fetching " ++ branch_name ++ ": " ++ e) .error now
        statusLog := [("Fetching " ++ branch_name ++ "...", .info),
                      ("Error fetching " ++ branch_name ++ ": " ++ e, .error)]
        calls := tr
        stderrLog := []
        result := some (.error e) }

/-- `App::refresh_branches`, `src/main.rs` lines 321-325: run
`BranchManager::refresh_branches`; on error print "Failed to refresh
branches: {e}" to stderr; no status is set and the selection is untouched. -/
def App.refresh_branches (a : App) : ActionOut :=
  match BranchManager.refresh_branches a.repo a.local_branches with
  | (lb, .ok _, tr) =>
    { app := { a with local_branches := lb }
      statusLog := []
      calls := tr
      stderrLog := []
      result := some (.ok ()) }
  | (lb, .error e, tr) =>
    { app := { a with local_branches := lb }
      statusLog := []
      calls := tr
      stderrLog := ["Failed to refresh branches: " ++ e]
      result := some (.error e) }

/-! ### Shared helper lemmas and concrete fixtures -/

theorem get_current_branch_calls (r : Repo) :
    (BranchManager.get_current_branch r).1 = [BCall.headCall] := by
  unfold BranchManager.get_current_branch
  cases r.head with
  | error e => rfl
  | ok h =>
    by_cases hb : h.is_branch <;> simp [hb]

/-- A repository oracle in which every backend call succeeds: HEAD is the
branch "main", the working tree is clean, and the local branches are "main"
and "dev". -/
def okRepo : Repo :=
  ⟨.ok ⟨true, some "main", .ok "0a1b2c"⟩, .ok 0, fun _ => .ok (), .ok (),
   fun _ => .ok (), fun _ _ _ => .ok (),
   .ok [.ok ⟨.ok (some "main")⟩, .ok ⟨.ok (some "dev")⟩]⟩

/-- `okRepo` with two uncommitted working-tree entries. -/
def dirtyRepo : Repo :=
  ⟨.ok ⟨true, some "main", .ok "0a1b2c"⟩, .ok 2, fun _ => .ok (), .ok (),
   fun _ => .ok (), fun _ _ _ => .ok (),
   .ok [.ok ⟨.ok (some "main")⟩, .ok ⟨.ok (some "dev")⟩]⟩

/-- `okRepo` whose `repo.head()` call fails with "boom". -/
def headErrRepo : Repo :=
  ⟨.error "boom", .ok 0, fun _ => .ok (), .ok (),
   fun _ => .ok (), fun _ _ _ => .ok (),
   .ok [.ok ⟨.ok (some "main")⟩, .ok ⟨.ok (some "dev")⟩]⟩

/-- A branch handle named "dev". -/
def devBranch : Branch := ⟨.ok (some "dev")⟩

/-- A branch handle whose name is not valid UTF-8 (`name()` is `Ok(None)`). -/
def badNameBranch : Branch := ⟨.ok none⟩

/-- A session over `dirtyRepo` with the catalog ["main", "dev"] and the
cursor on "dev". -/
def dirtyApp : App :=
  ⟨dirtyRepo, [⟨.ok (some "main")⟩, devBranch], some 1, false,
   OperationStatus.default_ 0⟩

/-- A session over `okRepo` with the cursor on "dev" and a pending status
"x". -/
def okApp : App :=
  ⟨okRepo, [⟨.ok (some "main")⟩, devBranch], some 1, false,
   ⟨"x", StatusType.info, 0⟩⟩

/-- A session over `okRepo` whose selected branch has an invalid-UTF-8
name. -/
def badNameApp : App :=
  ⟨okRepo, [badNameBranch], some 0, false, OperationStatus.default_ 0⟩

/-! ### C1 -/

/-- C1: whenever the Switch action's selected branch resolves to a name,
HEAD resolves to a current name, and the working-tree status list is
non-empty, the backend checkout (`set_head`/`checkout_head`) is never
invoked and the action ends with the Error status
"Error switching to {name}: Uncommitted local changes on branch {current}". -/
theorem switch_refused_when_dirty (a : App) (now : Nat) (b : Branch)
    (n cur : String) (k : Nat)
    (hb : a.selectedBranch = some b)
    (hn : b.name = .ok (some n))
    (hcur : (BranchManager.get_current_branch a.repo).2 = .ok cur)
    (hst : a.repo.statuses = .ok k) (hk : k ≠ 0) :
    (∀ refname, BCall.setHeadCall refname ∉ (a.switch_branch now).calls) ∧
    BCall.checkoutHeadCall ∉ (a.switch_branch now).calls ∧
    (a.switch_branch now).app.operation_status =
      ⟨"Error switching to " ++ n ++ ": Uncommitted local changes on branch "
         ++ cur, StatusType.error, now⟩ := by
  have hgcb : BranchManager.get_current_branch a.repo =
      ([BCall.headCall], Except.ok cur) := by
    rw [← get_current_branch_calls a.repo, ← hcur]
  have hsw : BranchManager.switch_to_branch a.repo b =
      ([BCall.headCall, BCall.statusesCall],
       .error ("Uncommitted local changes on branch " ++ cur)) := by
    unfold BranchManager.switch_to_branch
    rw [hn, hgcb, hst]
    simp [hk]
  have hlit : (": " : String) ++ ("Uncommitted local changes on branch " ++ cur)
      = ": Uncommitted local changes on branch " ++ cur := by
    rw [← String.append_assoc]; rfl
  simp [App.switch_branch, App.resolvedName, App.set_status, hb, hn, hsw,
    String.append_assoc, hlit]

/-- C1 witness: in `dirtyApp` (two status entries, HEAD "main", selection
"dev") the switch issues no checkout and reports the uncommitted-changes
error. -/
theorem switch_refused_when_dirty_witness :
    (∀ refname, BCall.setHeadCall refname ∉ (dirtyApp.switch_branch 7).calls) ∧
    BCall.checkoutHeadCall ∉ (dirtyApp.switch_branch 7).calls ∧
    (dirtyApp.switch_branch 7).app.operation_status =
      ⟨"Error switching to dev: Uncommitted local changes on branch main",
       StatusType.error, 7⟩ :=
  switch_refused_when_dirty dirtyApp 7 devBranch "dev" "main" 2
    (by rfl) (by rfl) (by rfl) (by rfl) (by decide)

/-! ### C2 -/

/-- C2 counterexample: in `okApp` the Refresh action succeeds, yet it makes
no `set_status` call at all — the status is neither "Refreshing" nor
"Refreshed Branches" but the untouched previous status "x". -/
theorem refresh_sets_no_status_cex :
    (okApp.refresh_branches).result = some (.ok ()) ∧
    (okApp.refresh_branches).statusLog = [] ∧
    (okApp.refresh_branches).app.operation_status.message = "x" ∧
    (okApp.refresh_branches).app.operation_status.message ≠ "Refreshed Branches" := by
  decide

/-- C2 amended: the Refresh action sets no status at all (neither
"Refreshing" nor a success status) and leaves the cursor untouched; on
failure it prints "Failed to refresh branches: {e}" to stderr and leaves the
catalog unchanged, and on success it replaces the catalog wholesale with the
new enumeration (out-of-range cursors are only clamped at the next render). -/
theorem refresh_action_spec (a : App) :
    (a.refresh_branches).statusLog = [] ∧
    (a.refresh_branches).app.operation_status = a.operation_status ∧
    (a.refresh_branches).app.selected = a.selected ∧
    (∀ e, a.repo.branches = .error e →
       (a.refresh_branches).app.local_branches = a.local_branches ∧
       (a.refresh_branches).stderrLog = ["Failed to refresh branches: " ++ e] ∧
       (a.refresh_branches).result = some (.error e)) ∧
    (∀ items, a.repo.branches = .ok items →
       (a.refresh_branches).app.local_branches = items.filterMap Except.toOption ∧
       (a.refresh_branches).stderrLog = [] ∧
       (a.refresh_branches).result = some (.ok ())) := by
  unfold App.refresh_branches BranchManager.refresh_branches
  cases hbr : a.repo.branches with
  | error e => simp [hbr]
  | ok items => simp [hbr]

/-- C2 witness: the amended behavior evaluated on `okApp`. -/
theorem refresh_action_spec_witness :
    (okApp.refresh_branches).app.local_branches =
      ([.ok ⟨.ok (some "main")⟩, .ok ⟨.ok (some "dev")⟩] :
        List (Except String Branch)).filterMap Except.toOption ∧
    (okApp.refresh_branches).stderrLog = [] ∧
    (okApp.refresh_branches).result = some (.ok ()) :=
  (refresh_action_spec okApp).2.2.2.2
    [.ok ⟨.ok (some "main")⟩, .ok ⟨.ok (some "dev")⟩] (by rfl)

/-! ### C3 -/

/-- C3 counterexample: in `headErrRepo` the head resolution fails with
"boom" while the tree is clean and checkout would succeed, yet
`switch_to_branch` on "dev" returns the head error without ever invoking the
cleanliness check or the checkout. -/
theorem head_failure_blocks_switch_cex :
    (BranchManager.switch_to_branch headErrRepo devBranch).2 = .error "boom" ∧
    BCall.statusesCall ∉ (BranchManager.switch_to_branch headErrRepo devBranch).1 ∧
    BCall.checkoutHeadCall ∉ (BranchManager.switch_to_branch headErrRepo devBranch).1 := by
  decide

/-- C3 amended: a failure of the HEAD-resolution call blocks the switch by
itself: `switch_to_branch` returns that error immediately, and neither the
cleanliness check nor the checkout (`set_head`/`checkout_head`) is
performed; the HEAD name is otherwise used only in the dirty-tree error
message. -/
theorem head_failure_blocks_switch (r : Repo) (b : Branch) (n e : String)
    (hn : b.name = .ok (some n))
    (he : (BranchManager.get_current_branch r).2 = .error e) :
    (BranchManager.switch_to_branch r b).2 = .error e ∧
    BCall.statusesCall ∉ (BranchManager.switch_to_branch r b).1 ∧
    (∀ refname, BCall.setHeadCall refname ∉ (BranchManager.switch_to_branch r b).1) ∧
    BCall.checkoutHeadCall ∉ (BranchManager.switch_to_branch r b).1 := by
  have hgcb : BranchManager.get_current_branch r = ([BCall.headCall], .error e) := by
    rw [← get_current_branch_calls r, ← he]
  have hsw : BranchManager.switch_to_branch r b = ([BCall.headCall], .error e) := by
    unfold BranchManager.switch_to_branch
    rw [hn, hgcb]
  simp [hsw]

/-- C3 witness: the amended behavior evaluated on `headErrRepo` and "dev". -/
theorem head_failure_blocks_switch_witness :
    (BranchManager.switch_to_branch headErrRepo devBranch).2 = .error "boom" ∧
    BCall.statusesCall ∉ (BranchManager.switch_to_branch headErrRepo devBranch).1 ∧
    (∀ refname,
      BCall.setHeadCall refname ∉ (BranchManager.switch_to_branch headErrRepo devBranch).1) ∧
    BCall.checkoutHeadCall ∉ (BranchManager.switch_to_branch headErrRepo devBranch).1 :=
  head_failure_blocks_switch headErrRepo devBranch "dev" "boom" (by rfl) (by rfl)

/-! ### C4 -/

/-- The two navigation actions dispatched by `App::handle_key`
(`src/main.rs` lines 220-221). -/
inductive NavAction where
  | up
  | down
deriving DecidableEq, Repr

/-- Apply one navigation key to the list-selection state. -/
def applyNav : NavAction → Option Nat → Option Nat
  | .down, s => listStateSelectNext s
  | .up, s => listStateSelectPrevious s

/-- One iteration of the control loop (`App::run`, `src/main.rs` lines
96-104) restricted to a navigation key: the draw normalises the list state
against the catalog length (`listRenderClamp`), then the key is handled. -/
def navStep (len : Nat) (s : Option Nat) (act : NavAction) : Option Nat :=
  applyNav act (listRenderClamp len s)

/-- The selection state after a sequence of navigation iterations. -/
def navRun (len : Nat) (s : Option Nat) : List NavAction → Option Nat
  | [] => s
  | act :: rest => navRun len (navStep len s act) rest

theorem applyNav_isSome (act : NavAction) (s : Option Nat) :
    ∃ m, applyNav act s = some m := by
  cases act <;> cases s <;>
    exact ⟨_, rfl⟩

theorem navRun_isSome (acts : List NavAction) (len k : Nat) :
    ∃ m, navRun len (some k) acts = some m := by
  induction acts generalizing k with
  | nil => exact ⟨k, rfl⟩
  | cons act rest ih =>
    obtain ⟨m, hm⟩ := applyNav_isSome act (listRenderClamp len (some k))
    simpa [navRun, navStep, hm] using ih m

theorem listRenderClamp_lt (len i : Nat) (hlen : len ≠ 0) :
    ∃ j, j < len ∧ listRenderClamp len (some i) = some j := by
  unfold listRenderClamp
  by_cases hi : i ≥ len
  · exact ⟨len - 1, Nat.sub_lt (Nat.pos_of_ne_zero hlen) Nat.one_pos,
      by simp [hlen, hi]⟩
  · exact ⟨i, Nat.lt_of_not_le hi, by simp [hlen, hi]⟩

/-- C4: starting from the initial selection `Some(0)` (`App::new`), after
any sequence of MoveUp/MoveDown loop iterations over a catalog of length
`len > 0`, the drawn cursor is a valid index in `[0, len-1]`; over an empty
catalog the drawn cursor is always `none`; navigation holds at either
boundary instead of wrapping; and navigation actions never change the
operation status or the catalog. -/
theorem nav_cursor_safe (acts : List NavAction) :
    (∀ len, len ≠ 0 →
       ∃ j, j < len ∧ listRenderClamp len (navRun len (some 0) acts) = some j) ∧
    (∀ s, listRenderClamp 0 (navRun 0 s acts) = none) ∧
    (∀ len, len ≠ 0 → len ≤ USIZE_MAX →
       listRenderClamp len (navStep len (some (len - 1)) NavAction.down) =
         some (len - 1) ∧
       listRenderClamp len (navStep len (some 0) NavAction.up) = some 0) ∧
    (∀ a : App,
       a.select_next.operation_status = a.operation_status ∧
       a.select_next.local_branches = a.local_branches ∧
       a.select_previous.operation_status = a.operation_status ∧
       a.select_previous.local_branches = a.local_branches) := by
  refine ⟨?_, ?_, ?_, ?_⟩
  · intro len hlen
    obtain ⟨m, hm⟩ := navRun_isSome acts len 0
    rw [hm]
    exact listRenderClamp_lt len m hlen
  · intro s
    simp [listRenderClamp]
  · intro len hlen hmax
    have hlt : len - 1 < len := Nat.sub_lt (Nat.pos_of_ne_zero hlen) Nat.one_pos
    constructor
    · have h₁ : listRenderClamp len (some (len - 1)) = some (len - 1) := by
        simp [listRenderClamp, hlen, Nat.not_le.2 hlt]
      have h₂ : min ((len - 1) + 1) USIZE_MAX = len := by
        rw [Nat.sub_add_cancel (Nat.pos_of_ne_zero hlen)]
        exact Nat.min_eq_left hmax
      simp [navStep, applyNav, listStateSelectNext, h₁, h₂, listRenderClamp, hlen]
    · have h₁ : listRenderClamp len (some 0) = some 0 := by
        simp [listRenderClamp, hlen, Nat.pos_of_ne_zero hlen]
      simp [navStep, applyNav, listStateSelectPrevious, h₁, listRenderClamp,
        hlen, Nat.pos_of_ne_zero hlen]
  · intro a
    exact ⟨rfl, rfl, rfl, rfl⟩

/-- C4 witness: three MoveDown iterations over a two-entry catalog leave the
drawn cursor at a valid index, and over an empty catalog the drawn cursor is
`none`. -/
theorem nav_cursor_safe_witness :
    (∃ j, j < 2 ∧
      listRenderClamp 2
        (navRun 2 (some 0) [NavAction.down, NavAction.down, NavAction.down]) =
        some j) ∧
    listRenderClamp 0
      (navRun 0 (some 0) [NavAction.down, NavAction.down, NavAction.down]) =
      none :=
  ⟨(nav_cursor_safe [NavAction.down, NavAction.down, NavAction.down]).1 2
     (by decide),
   (nav_cursor_safe [NavAction.down, NavAction.down, NavAction.down]).2.1
     (some 0)⟩

/-! ### C5 -/

/-- C5 counterexample: a status set at instant 0 and read at 3500 ms has an
age of 3.5 seconds — exceeding 3 seconds — yet the read still returns the
stored message with its Error severity, not ("Ready", Info), because
`elapsed().as_secs() > 3` only holds from 4 whole seconds on. -/
theorem status_expiry_cex :
    3500 > 3 * 1000 ∧
    (render_status_read ⟨"x", StatusType.error, 0⟩ 3500).1 =
      ⟨"x", StatusType.error, 0⟩ ∧
    (render_status_read ⟨"x", StatusType.error, 0⟩ 3500).2.1 ≠ "Ready" ∧
    (render_status_read ⟨"x", StatusType.error, 0⟩ 3500).2.2 =
      StatusType.error := by
  decide

/-- C5 amended: after `Set(message, severity)` with a non-empty message, a
read returns the stored (message, severity) — displayed as the severity
emoji followed by the message — while the elapsed time truncated to whole
seconds (`Duration::as_secs`) is at most 3, i.e. while the age is under 4
seconds; once the elapsed whole seconds exceed 3 the read returns
("Ready", Info), resetting the stored status to the default as a side
effect rather than deleting it. -/
theorem status_expiry_spec (msg : String) (sev : StatusType) (t0 now : Nat)
    (hmsg : msg ≠ "") :
    ((now - t0) / 1000 ≤ 3 →
       render_status_read ⟨msg, sev, t0⟩ now =
         (⟨msg, sev, t0⟩, sev.get_emoji ++ " " ++ msg, sev)) ∧
    ((now - t0) / 1000 > 3 →
       render_status_read ⟨msg, sev, t0⟩ now =
         (OperationStatus.default_ now, "Ready", StatusType.info)) := by
  constructor
  · intro h
    simp [render_status_read, OperationStatus.is_expired_or_empty,
      elapsedAsSecs, Nat.not_lt.2 h, hmsg]
  · intro h
    simp [render_status_read, OperationStatus.is_expired_or_empty,
      elapsedAsSecs, h, hmsg, OperationStatus.default_]

/-- C5 witness: the amended behavior at ages 3.5 s (message still shown)
and 5 s (reverted to Ready). -/
theorem status_expiry_spec_witness :
    render_status_read ⟨"x", StatusType.error, 0⟩ 3500 =
      (⟨"x", StatusType.error, 0⟩, StatusType.error.get_emoji ++ " " ++ "x",
       StatusType.error) ∧
    render_status_read ⟨"x", StatusType.error, 0⟩ 5000 =
      (OperationStatus.default_ 5000, "Ready", StatusType.info) :=
  ⟨(status_expiry_spec "x" StatusType.error 0 3500 (by decide)).1 (by decide),
   (status_expiry_spec "x" StatusType.error 0 5000 (by decide)).2 (by decide)⟩

/-! ### C6 -/

/-- C6: for a Fetch action whose selected branch has a valid-UTF-8 name
`n`, every fetch issued goes to the remote literally named "origin" with
exactly the single refspec `+refs/heads/n:refs/remotes/origin/n` and tag
downloading disabled; when the remote lookup succeeds the fetch call is in
fact issued with those arguments; and on overall success the status becomes
("Successfully fetched n", Success). -/
theorem fetch_refspec_exact (a : App) (now : Nat) (b : Branch) (n : String)
    (hb : a.selectedBranch = some b)
    (hn : b.name = .ok (some n)) :
    (∀ rn rs tags, BCall.fetchCall rn rs tags ∈ (a.fetch_branch now).calls →
       rn = "origin" ∧
       rs = ["+refs/heads/" ++ n ++ ":refs/remotes/origin/" ++ n] ∧
       tags = AutotagOption.noTags) ∧
    (a.repo.find_remote "origin" = .ok () →
       BCall.fetchCall "origin"
         ["+refs/heads/" ++ n ++ ":refs/remotes/origin/" ++ n]
         AutotagOption.noTags ∈ (a.fetch_branch now).calls) ∧
    ((a.fetch_branch now).result = some (.ok ()) →
       (a.fetch_branch now).app.operation_status =
         ⟨"Successfully fetched " ++ n, StatusType.success, now⟩) := by
  cases hfr : a.repo.find_remote "origin" with
  | error e =>
    have hfo : BranchManager.fetch_on_branch a.repo b =
        ([BCall.findRemoteCall "origin"], .error e) := by
      unfold BranchManager.fetch_on_branch
      rw [hn, hfr]
    refine ⟨?_, ?_, ?_⟩
    · intro rn rs tags hmem
      simp [App.fetch_branch, hb, hfo] at hmem
    · intro h
      exact absurd h (by simp)
    · intro h
      simp [App.fetch_branch, hb, hfo] at h
  | ok u =>
    cases u
    cases hres : a.repo.fetch "origin"
        ["+refs/heads/" ++ n ++ ":refs/remotes/origin/" ++ n]
        ⟨AutotagOption.noTags⟩ with
    | error e =>
      have hfo : BranchManager.fetch_on_branch a.repo b =
          ([BCall.findRemoteCall "origin",
            BCall.fetchCall "origin"
              ["+refs/heads/" ++ n ++ ":refs/remotes/origin/" ++ n]
              AutotagOption.noTags], .error e) := by
        unfold BranchManager.fetch_on_branch
        rw [hn, hfr]
        simpa [FetchOptions.new, FetchOptions.set_download_tags] using hres
      refine ⟨?_, ?_, ?_⟩
      · intro rn rs tags hmem
        simp [App.fetch_branch, hb, hfo] at hmem
        exact hmem
      · intro _
        simp [App.fetch_branch, hb, hfo]
      · intro h
        simp [App.fetch_branch, hb, hfo] at h
    | ok v =>
      cases v
      have hfo : BranchManager.fetch_on_branch a.repo b =
          ([BCall.findRemoteCall "origin",
            BCall.fetchCall "origin"
              ["+refs/heads/" ++ n ++ ":refs/remotes/origin/" ++ n]
              AutotagOption.noTags], .ok ()) := by
        unfold BranchManager.fetch_on_branch
        rw [hn, hfr]
        simpa [FetchOptions.new, FetchOptions.set_download_tags] using hres
      refine ⟨?_, ?_, ?_⟩
      · intro rn rs tags hmem
        simp [App.fetch_branch, hb, hfo] at hmem
        exact hmem
      · intro _
        simp [App.fetch_branch, hb, hfo]
      · intro _
        simp [App.fetch_branch, hb, hfo, App.set_status, App.resolvedName, hn]

/-- C6 witness: fetching "dev" in `okApp` issues exactly the expected fetch
call and reports success. -/
theorem fetch_refspec_exact_witness :
    BCall.fetchCall "origin" ["+refs/heads/dev:refs/remotes/origin/dev"]
      AutotagOption.noTags ∈ (okApp.fetch_branch 9).calls ∧
    (okApp.fetch_branch 9).app.operation_status =
      ⟨"Successfully fetched dev", StatusType.success, 9⟩ :=
  ⟨(fetch_refspec_exact okApp 9 devBranch "dev" (by rfl) (by rfl)).2.1 (by rfl),
   (fetch_refspec_exact okApp 9 devBranch "dev" (by rfl) (by rfl)).2.2 (by rfl)⟩

/-! ### C7 -/

theorem fetch_on_branch_never_statuses (r : Repo) (b : Branch) :
    BCall.statusesCall ∉ (BranchManager.fetch_on_branch r b).1 := by
  unfold BranchManager.fetch_on_branch
  cases hn : b.name with
  | error e => simp
  | ok o =>
    cases o with
    | none => simp
    | some s =>
      cases hfr : r.find_remote "origin" with
      | error e => simp
      | ok u => simp

/-- C7: no Fetch action, from any session state, ever invokes the
working-tree cleanliness check (`repo.statuses`). -/
theorem fetch_never_checks_worktree (a : App) (now : Nat) :
    BCall.statusesCall ∉ (a.fetch_branch now).calls := by
  cases hsel : a.selectedBranch with
  | none => simp [App.fetch_branch, hsel]
  | some b =>
    cases hfo : BranchManager.fetch_on_branch a.repo b with
    | mk tr res =>
      have htr : BCall.statusesCall ∉ tr := by
        have := fetch_on_branch_never_statuses a.repo b
        rw [hfo] at this
        exact this
      cases res with
      | ok v => simp [App.fetch_branch, hsel, hfo, htr]
      | error e => simp [App.fetch_branch, hsel, hfo, htr]

/-! ### C8 -/

/-- C8: when branch enumeration fails, `BranchManager::refresh_branches`
leaves the existing catalog untouched and returns the error to the caller;
when it succeeds, the catalog is replaced wholesale (in one assignment, with
no partial state observable) by the new enumeration with errored entries
filtered out. -/
theorem refresh_branches_atomic (r : Repo) (cur : List Branch) :
    (∀ e, r.branches = .error e →
       BranchManager.refresh_branches r cur =
         (cur, .error e, [BCall.branchesCall])) ∧
    (∀ items, r.branches = .ok items →
       BranchManager.refresh_branches r cur =
         (items.filterMap Except.toOption, .ok (), [BCall.branchesCall])) := by
  constructor
  · intro e he
    simp [BranchManager.refresh_branches, he]
  · intro items hi
    simp [BranchManager.refresh_branches, hi]

/-- C8 witness: refreshing over a failing enumeration keeps the catalog;
refreshing over `okRepo` replaces it. -/
theorem refresh_branches_atomic_witness :
    BranchManager.refresh_branches
        ⟨.error "boom", .ok 0, fun _ => .ok (), .ok (), fun _ => .ok (),
         fun _ _ _ => .ok (), .error "enum failed"⟩ [devBranch] =
      ([devBranch], .error "enum failed", [BCall.branchesCall]) ∧
    BranchManager.refresh_branches okRepo [devBranch] =
      ([⟨.ok (some "main")⟩, ⟨.ok (some "dev")⟩], .ok (),
       [BCall.branchesCall]) :=
  ⟨(refresh_branches_atomic _ [devBranch]).1 "enum failed" (by rfl),
   (refresh_branches_atomic okRepo [devBranch]).2
     [.ok ⟨.ok (some "main")⟩, .ok ⟨.ok (some "dev")⟩] (by rfl)⟩

/-! ### C9 -/

/-- C9: Switch and Fetch never modify the branch catalog, the selection
cursor, or the exit flag, on any path (success, failure, or no selection);
navigation and Quit also leave the catalog unchanged — of the six actions
only Refresh replaces the catalog. -/
theorem switch_fetch_frame (a : App) (now : Nat) :
    ((a.switch_branch now).app.local_branches = a.local_branches ∧
     (a.switch_branch now).app.selected = a.selected ∧
     (a.switch_branch now).app.exit = a.exit) ∧
    ((a.fetch_branch now).app.local_branches = a.local_branches ∧
     (a.fetch_branch now).app.selected = a.selected ∧
     (a.fetch_branch now).app.exit = a.exit) ∧
    (a.select_next.local_branches = a.local_branches ∧
     a.select_previous.local_branches = a.local_branches ∧
     a.quit.local_branches = a.local_branches) := by
  refine ⟨?_, ?_, ⟨rfl, rfl, rfl⟩⟩
  · cases hsel : a.selectedBranch with
    | none => simp [App.switch_branch, hsel, App.set_status]
    | some b =>
      cases hsw : BranchManager.switch_to_branch a.repo b with
      | mk tr res =>
        cases res with
        | ok v => simp [App.switch_branch, hsel, hsw, App.set_status]
        | error e => simp [App.switch_branch, hsel, hsw, App.set_status]
  · cases hsel : a.selectedBranch with
    | none => simp [App.fetch_branch, hsel, App.set_status]
    | some b =>
      cases hfo : BranchManager.fetch_on_branch a.repo b with
      | mk tr res =>
        cases res with
        | ok v => simp [App.fetch_branch, hsel, hfo, App.set_status]
        | error e => simp [App.fetch_branch, hsel, hfo, App.set_status]

/-! ### C10 -/

/-- C10: when the cursor selects an existing branch whose name is not valid
UTF-8 (`name()` is `Ok(None)`), Switch and Fetch are not the no-selection
no-op: both use the placeholder "unknown branch" in their status messages,
attempt the operation (the result is `Some(Err(..))`, not `None`), and end
with an Error-severity status whose text contains
"Invalid UTF-8 in branch name". -/
theorem invalid_utf8_branch_actions (a : App) (now : Nat) (b : Branch)
    (hb : a.selectedBranch = some b) (hn : b.name = .ok none) :
    (a.switch_branch now).statusLog =
      [("Switching to unknown branch...", .info),
       ("Error switching to unknown branch: Invalid UTF-8 in branch name.",
        .error)] ∧
    (a.switch_branch now).result = some (.error "Invalid UTF-8 in branch name.") ∧
    (a.switch_branch now).app.operation_status.status_type = .error ∧
    List.IsInfix "Invalid UTF-8 in branch name".data
      (a.switch_branch now).app.operation_status.message.data ∧
    (a.fetch_branch now).statusLog =
      [("Fetching unknown branch...", .info),
       ("Error fetching unknown branch: Invalid UTF-8 in branch name",
        .error)] ∧
    (a.fetch_branch now).result = some (.error "Invalid UTF-8 in branch name") ∧
    (a.fetch_branch now).app.operation_status.status_type = .error ∧
    List.IsInfix "Invalid UTF-8 in branch name".data
      (a.fetch_branch now).app.operation_status.message.data := by
  have hswb : BranchManager.switch_to_branch a.repo b =
      ([], .error "Invalid UTF-8 in branch name.") := by
    unfold BranchManager.switch_to_branch
    rw [hn]
  have hfob : BranchManager.fetch_on_branch a.repo b =
      ([], .error "Invalid UTF-8 in branch name") := by
    unfold BranchManager.fetch_on_branch
    rw [hn]
  have hname : a.resolvedName = "unknown branch" := by
    simp [App.resolvedName, hb, hn]
  refine ⟨?_, ?_, ?_, ?_, ?_, ?_, ?_, ?_⟩
  · simp [App.switch_branch, App.set_status, hb, hswb, hname]
  · simp [App.switch_branch, App.set_status, hb, hswb, hname]
  · simp [App.switch_branch, App.set_status, hb, hswb, hname]
  · simp only [App.switch_branch, App.set_status, hb, hswb, hname]
    decide
  · simp [App.fetch_branch, App.set_status, hb, hfob, hname]
  · simp [App.fetch_branch, App.set_status, hb, hfob, hname]
  · simp [App.fetch_branch, App.set_status, hb, hfob, hname]
  · simp only [App.fetch_branch, App.set_status, hb, hfob, hname]
    decide

/-- C10 witness: the behavior evaluated on `badNameApp`, whose selected
branch handle reports `Ok(None)` for its name. -/
theorem invalid_utf8_branch_actions_witness :
    (badNameApp.switch_branch 4).result =
      some (.error "Invalid UTF-8 in branch name.") ∧
    (badNameApp.fetch_branch 4).statusLog =
      [("Fetching unknown branch...", .info),
       ("Error fetching unknown branch: Invalid UTF-8 in branch name",
        .error)] :=
  ⟨(invalid_utf8_branch_actions badNameApp 4 badNameBranch (by rfl)
      (by rfl)).2.1,
   (invalid_utf8_branch_actions badNameApp 4 badNameBranch (by rfl)
      (by rfl)).2.2.2.2.1⟩
